import Mathlib

/-!
Shallow embedding of the movement / collision / camera core of
`PiGameTest1.py` (top-down tile-world prototype).

Positions and speeds are modelled by real numbers (the Python code uses
floats), pixel and tile indices by integers, and the tile grid by a list of
rows.  Each definition is translated from the corresponding place in the
source file; line numbers in the doc comments refer to
`PiGame 0.1.2/PiGameTest1/PiGameTest1.py`.
-/

namespace PiGame

/-- Configuration constant, source line 8. -/
def SCREEN_WIDTH : ℤ := 640

/-- Configuration constant, source line 9. -/
def SCREEN_HEIGHT : ℤ := 480

/-- Configuration constant, source line 10. -/
def TILE_SIZE : ℤ := 32

/-- Configuration constant, source line 17. -/
noncomputable def WALK_SPEED : ℝ := 2

/-- Configuration constant, source line 18. -/
noncomputable def SPRINT_SPEED : ℝ := 4

/-- Fixed camera focus point, source line 21 (`SCREEN_WIDTH // 2`). -/
def CAMERA_X : ℤ := SCREEN_WIDTH / 2

/-- Fixed camera focus point, source line 22 (`SCREEN_HEIGHT // 2`). -/
def CAMERA_Y : ℤ := SCREEN_HEIGHT / 2

/-- Tile kind codes from `map_data` (GRASS, WALL, STAIRS, DOOR, SPAWN). -/
inductive Tile where
  | grass
  | wall
  | stairs
  | door
  | spawn
deriving DecidableEq, Repr

/-- A map grid: a list of rows of tile codes (`map_data.MAP_COLLECTION` values). -/
abbrev Grid := List (List Tile)

/-- The `Map` class (source lines 93-98): it stores the looked-up grid. -/
structure Map where
  map_array : Grid
deriving DecidableEq, Repr

/-- Source line 96: `self.height = len(self.map_array)`. -/
def Map.height (m : Map) : ℤ := m.map_array.length

/-- Source line 97: `self.width = len(self.map_array[0])`. -/
def Map.width (m : Map) : ℤ := (m.map_array.headD []).length

/-- The ways `Map.__init__` can fail: a `KeyError` from
`map_data.MAP_COLLECTION[map_name]` when the name is unknown, and an
`IndexError` from `self.map_array[0]` when the grid has no rows. -/
inductive MapInitError where
  | mapNotFound
  | emptyGrid
deriving DecidableEq, Repr

/-- The `Map.__init__` constructor (source lines 94-98): look the name up in
the collection and store the grid.  The only failure paths are the dictionary
lookup and indexing row 0; the body performs no validation of the grid's
shape. -/
def Map.init (collection : List (String × Grid)) (map_name : String) : Except MapInitError Map :=
  match collection.lookup map_name with
  | none => Except.error MapInitError.mapNotFound
  | some g => if g.isEmpty then Except.error MapInitError.emptyGrid else Except.ok ⟨g⟩

/-- A grid is rectangular when every row has the length of the first row. -/
def rectangular (g : Grid) : Bool :=
  g.all fun row => row.length == (g.headD []).length

/-- The scan phase of `get_random_spawn_point` (source lines 131-137):
row-major collection of every SPAWN cell as a pixel coordinate
`(col * TILE_SIZE, row * TILE_SIZE)`. -/
def spawn_points (g : Grid) : List (ℤ × ℤ) :=
  (g.enum.map fun r =>
    r.2.enum.filterMap fun c =>
      if c.2 = Tile.spawn then some ((c.1 : ℤ) * TILE_SIZE, (r.1 : ℤ) * TILE_SIZE)
      else none).flatten

/-- The spawn selector `get_random_spawn_point` (source lines 129-143).  The
returned `Bool` records whether the "no SPAWN tiles" warning was printed.
`random.choice` (Python standard library, seeded outside this file) is
modelled by the abstract index source `pick`: the chosen element is the one
at index `pick n % n` where `n` is the number of collected spawn points, so a
fixed `pick` (a seed) determines the choice. -/
def get_random_spawn_point (g : Grid) (pick : ℕ → ℕ) : (ℤ × ℤ) × Bool :=
  let pts := spawn_points g
  if pts.isEmpty then ((0, 0), true)
  else (pts.getD (pick pts.length % pts.length) (0, 0), false)

/-- Facing directions of the player sprite. -/
inductive Dir where
  | up
  | down
  | left
  | right
deriving DecidableEq, Repr

/-- A snapshot of the named boolean game actions (the `action_state`
dictionary of `InputManager`, source lines 71-74). -/
structure InputState where
  up : Bool
  down : Bool
  left : Bool
  right : Bool
  sprint : Bool
  action_a : Bool
  action_y : Bool
deriving DecidableEq, Repr

/-- The mutable state of the `Player` object that the core logic touches:
world position, per-tick movement vector, current speed and facing.  The
bounding size `rect.width`/`rect.height` is passed separately to the
functions that need it. -/
structure PlayerState where
  world_x : ℝ
  world_y : ℝ
  change_x : ℝ
  change_y : ℝ
  current_speed : ℝ
  current_direction : Dir

/-- The fields `Player.__init__` (source lines 150-172) gives a new player:
position from the spawn point, walk speed, facing down, zero movement. -/
noncomputable def Player.init (x y : ℝ) : PlayerState :=
  { world_x := x
    world_y := y
    change_x := 0
    change_y := 0
    current_speed := WALK_SPEED
    current_direction := Dir.down }

/-- The collision test `Player._check_collision` (source lines 174-188): the
four corners of the box `[next_x, next_x + w - 1] × [next_y, next_y + h - 1]`
are converted to tile coordinates by floor division by `TILE_SIZE`, and the
test is true iff some corner whose tile coordinate is in bounds of the grid
holds a WALL tile. -/
noncomputable def Player.check_collision (m : Map) (w h : ℤ) (next_x next_y : ℝ) : Bool :=
  [ (⌊next_x / (TILE_SIZE : ℝ)⌋, ⌊next_y / (TILE_SIZE : ℝ)⌋),
    (⌊next_x / (TILE_SIZE : ℝ)⌋, ⌊(next_y + (h : ℝ) - 1) / (TILE_SIZE : ℝ)⌋),
    (⌊(next_x + (w : ℝ) - 1) / (TILE_SIZE : ℝ)⌋, ⌊next_y / (TILE_SIZE : ℝ)⌋),
    (⌊(next_x + (w : ℝ) - 1) / (TILE_SIZE : ℝ)⌋, ⌊(next_y + (h : ℝ) - 1) / (TILE_SIZE : ℝ)⌋)
  ].any fun t =>
    decide (0 ≤ t.2) && decide (t.2 < m.height) && decide (0 ≤ t.1) && decide (t.1 < m.width) &&
    decide ((m.map_array.getD t.2.toNat []).getD t.1.toNat Tile.grass = Tile.wall)

/-- The intent-resolution step `Player.handle_input` (source lines 190-213):
speed from the sprint action, movement vector zeroed and then rewritten by
the four direction actions in the fixed order left, right, up, down, each
also overwriting the facing.  The `action_a`/`action_y` prints (lines
215-218) are pure signals to the surrounding application and touch no state
modelled here. -/
noncomputable def Player.handle_input (inp : InputState) (p : PlayerState) : PlayerState :=
  let p0 := { p with
    current_speed := if inp.sprint then SPRINT_SPEED else WALK_SPEED
    change_x := 0
    change_y := 0 }
  let p1 := if inp.left then
    { p0 with change_x := -p0.current_speed, current_direction := Dir.left } else p0
  let p2 := if inp.right then
    { p1 with change_x := p1.current_speed, current_direction := Dir.right } else p1
  let p3 := if inp.up then
    { p2 with change_y := -p2.current_speed, current_direction := Dir.up } else p2
  let p4 := if inp.down then
    { p3 with change_y := p3.current_speed, current_direction := Dir.down } else p3
  p4

/-- The displacement computation of `Player.update` (source lines 222-232):
`dx, dy` start at zero; when the movement vector is non-zero it is taken
over, rescaled by `current_speed / sqrt(change_x² + change_y²)` when both
axes are non-zero (diagonal correction). -/
noncomputable def displacement (change_x change_y current_speed : ℝ) : ℝ × ℝ :=
  if change_x ^ 2 + change_y ^ 2 > 0 then
    if change_x ≠ 0 ∧ change_y ≠ 0 then
      let scaling_factor := current_speed / Real.sqrt (change_x ^ 2 + change_y ^ 2)
      (change_x * scaling_factor, change_y * scaling_factor)
    else (change_x, change_y)
  else (0, 0)

/-- The axis-separated collision step of `Player.update` (source lines
234-238): commit `dx` unless the box at `(x + dx, y)` collides, then commit
`dy` unless the box at the possibly-updated x and `y + dy` collides. -/
noncomputable def Player.moveWithCollision (m : Map) (w h : ℤ) (x y dx dy : ℝ) : ℝ × ℝ :=
  let x' := if Player.check_collision m w h (x + dx) y then x else x + dx
  let y' := if Player.check_collision m w h x' (y + dy) then y else y + dy
  (x', y')

/-- The per-tick update `Player.update` (source lines 220-244): displacement
with diagonal correction, axis-separated collision (both only when the
movement vector is non-zero), then the unconditional clamp of the position
to `[0, map_pixels - bounding_size]` on each axis. -/
noncomputable def Player.update (m : Map) (w h : ℤ) (p : PlayerState) : PlayerState :=
  let d := displacement p.change_x p.change_y p.current_speed
  let moved :=
    if p.change_x ^ 2 + p.change_y ^ 2 > 0 then
      Player.moveWithCollision m w h p.world_x p.world_y d.1 d.2
    else (p.world_x, p.world_y)
  let map_max_x : ℝ := ((m.width * TILE_SIZE - w : ℤ) : ℝ)
  let map_max_y : ℝ := ((m.height * TILE_SIZE - h : ℤ) : ℝ)
  { p with
    world_x := max 0 (min moved.1 map_max_x)
    world_y := max 0 (min moved.2 map_max_y) }

/-- The camera's pre-clamp target offset on the x axis, source line 277:
`camera_offset_x = CAMERA_X - player.world_x`. -/
noncomputable def cameraTargetX (world_x : ℝ) : ℝ := (CAMERA_X : ℝ) - world_x

/-- The camera's pre-clamp target offset on the y axis, source line 278. -/
noncomputable def cameraTargetY (world_y : ℝ) : ℝ := (CAMERA_Y : ℝ) - world_y

/-- The camera target as the spec words it, stated for the refinement
comparison of claim C5: fixed focus point minus the player's **center**
(world position plus half the bounding size).  The source (line 277)
subtracts the player's world position, i.e. the top-left corner of its
bounding box, instead. -/
noncomputable def cameraTargetXSpec (world_x : ℝ) (w : ℤ) : ℝ :=
  (CAMERA_X : ℝ) - (world_x + (w : ℝ) / 2)

/-- The per-axis camera clamp of the main loop (source lines 281-290): when
the map is narrower than the viewport, center it with the integer division
`(viewport - map_pixels) // 2`; otherwise clamp the target offset into
`[viewport - map_pixels, 0]`. -/
noncomputable def clamp_camera_axis (viewport map_pixels : ℤ) (offset : ℝ) : ℝ :=
  if map_pixels < viewport then ((Int.fdiv (viewport - map_pixels) 2 : ℤ) : ℝ)
  else min 0 (max offset ((viewport : ℝ) - (map_pixels : ℝ)))

/-- The final camera offset on the x axis for a given player position
(source lines 277, 281-284). -/
noncomputable def camera_offset_x (m : Map) (world_x : ℝ) : ℝ :=
  clamp_camera_axis SCREEN_WIDTH (m.width * TILE_SIZE) (cameraTargetX world_x)

/-- The final camera offset on the y axis for a given player position
(source lines 278, 287-290). -/
noncomputable def camera_offset_y (m : Map) (world_y : ℝ) : ℝ :=
  clamp_camera_axis SCREEN_HEIGHT (m.height * TILE_SIZE) (cameraTargetY world_y)

/-! ### Concrete fixtures used by the witnesses -/

/-- An input snapshot with no action active. -/
def noInput : InputState :=
  { up := false, down := false, left := false, right := false,
    sprint := false, action_a := false, action_y := false }

/-- An input snapshot with all four directions held at once. -/
def allDirections : InputState :=
  { up := true, down := true, left := true, right := true,
    sprint := false, action_a := false, action_y := false }

/-- An input snapshot asking for the up-left diagonal. -/
def upLeftInput : InputState :=
  { up := true, down := false, left := true, right := false,
    sprint := false, action_a := false, action_y := false }

/-- A 3 x 3 map whose top row is walls. -/
def wallMap : Map :=
  ⟨[[Tile.wall, Tile.wall, Tile.wall],
    [Tile.grass, Tile.grass, Tile.grass],
    [Tile.grass, Tile.grass, Tile.grass]]⟩

/-- A 3 x 3 all-grass map. -/
def openMap : Map :=
  ⟨[[Tile.grass, Tile.grass, Tile.grass],
    [Tile.grass, Tile.grass, Tile.grass],
    [Tile.grass, Tile.grass, Tile.grass]]⟩

/-- A 25 x 10 all-grass map: 800 x 320 pixels, wider but shorter than the
640 x 480 viewport. -/
def wideMap : Map := ⟨List.replicate 10 (List.replicate 25 Tile.grass)⟩

/-- A 25 x 20 all-grass map: 800 x 640 pixels, larger than the viewport on
both axes. -/
def bigMap : Map := ⟨List.replicate 20 (List.replicate 25 Tile.grass)⟩

/-- A 4 x 4 grid with exactly one SPAWN tile, at column 2 of row 3. -/
def spawnDemoGrid : Grid :=
  [[Tile.grass, Tile.grass, Tile.grass, Tile.grass],
   [Tile.grass, Tile.grass, Tile.grass, Tile.grass],
   [Tile.grass, Tile.grass, Tile.grass, Tile.grass],
   [Tile.grass, Tile.grass, Tile.spawn, Tile.grass]]

/-- A non-rectangular grid: the second row is longer than the first. -/
def raggedGrid : Grid := [[Tile.grass], [Tile.grass, Tile.grass]]

/-! ### Helper lemmas -/

/-- Evaluation rule for floor division by the tile size. -/
lemma floor_tile (x : ℝ) (n : ℤ) (h1 : (n : ℝ) * 32 ≤ x) (h2 : x < ((n : ℝ) + 1) * 32) :
    ⌊x / (TILE_SIZE : ℝ)⌋ = n := by
  have ht : ((TILE_SIZE : ℤ) : ℝ) = 32 := by norm_num [TILE_SIZE]
  rw [ht, Int.floor_eq_iff]
  constructor
  · rw [le_div_iff₀ (by norm_num : (0 : ℝ) < 32)]
    exact h1
  · rw [div_lt_iff₀ (by norm_num : (0 : ℝ) < 32)]
    linarith

/-- Rewriting `check_collision` once the four floor divisions are known. -/
lemma check_collision_eval (m : Map) (w h : ℤ) (x y : ℝ) (x1 y1 x2 y2 : ℤ)
    (hx1 : ⌊x / (TILE_SIZE : ℝ)⌋ = x1) (hy1 : ⌊y / (TILE_SIZE : ℝ)⌋ = y1)
    (hx2 : ⌊(x + (w : ℝ) - 1) / (TILE_SIZE : ℝ)⌋ = x2)
    (hy2 : ⌊(y + (h : ℝ) - 1) / (TILE_SIZE : ℝ)⌋ = y2) :
    Player.check_collision m w h x y =
      ([(x1, y1), (x1, y2), (x2, y1), (x2, y2)].any fun t =>
        decide (0 ≤ t.2) && decide (t.2 < m.height) && decide (0 ≤ t.1) &&
        decide (t.1 < m.width) &&
        decide ((m.map_array.getD t.2.toNat []).getD t.1.toNat Tile.grass = Tile.wall)) := by
  unfold Player.check_collision
  rw [hx1, hy1, hx2, hy2]

/-! ### Claims -/

/-- C1: for every tick, after `Player.update()` completes, the player's world
position lies within `[0, map_pixel_width - w]` on the x axis and
`[0, map_pixel_height - h]` on the y axis, for any move intent and any
starting position, assuming the map's pixel dimensions are at least the
player's bounding size. -/
theorem update_position_in_bounds (m : Map) (w h : ℤ) (p : PlayerState)
    (hw : w ≤ m.width * TILE_SIZE) (hh : h ≤ m.height * TILE_SIZE) :
    0 ≤ (Player.update m w h p).world_x ∧
    (Player.update m w h p).world_x ≤ ((m.width * TILE_SIZE - w : ℤ) : ℝ) ∧
    0 ≤ (Player.update m w h p).world_y ∧
    (Player.update m w h p).world_y ≤ ((m.height * TILE_SIZE - h : ℤ) : ℝ) := by
  have hx : (0 : ℝ) ≤ ((m.width * TILE_SIZE - w : ℤ) : ℝ) := by
    exact_mod_cast sub_nonneg.mpr hw
  have hy : (0 : ℝ) ≤ ((m.height * TILE_SIZE - h : ℤ) : ℝ) := by
    exact_mod_cast sub_nonneg.mpr hh
  unfold Player.update
  exact ⟨le_max_left _ _, max_le hx (min_le_right _ _),
    le_max_left _ _, max_le hy (min_le_right _ _)⟩

/-- C1 witness: the invariant instantiated on a concrete 3 x 3 map and a
concrete player state. -/
theorem update_position_in_bounds_witness :
    0 ≤ (Player.update openMap 32 32 (Player.init 0 0)).world_x ∧
    (Player.update openMap 32 32 (Player.init 0 0)).world_x ≤
      ((openMap.width * TILE_SIZE - 32 : ℤ) : ℝ) ∧
    0 ≤ (Player.update openMap 32 32 (Player.init 0 0)).world_y ∧
    (Player.update openMap 32 32 (Player.init 0 0)).world_y ≤
      ((openMap.height * TILE_SIZE - 32 : ℤ) : ℝ) :=
  update_position_in_bounds openMap 32 32 (Player.init 0 0) (by decide) (by decide)

/-- C2: collision is resolved per axis: the x displacement is committed iff
the box at `(x + dx, y)` is not blocked, then the y displacement is
committed iff the box at the possibly-updated x and `y + dy` is not blocked,
so a clear axis still advances when the other is blocked (sliding). -/
theorem moveWithCollision_axis_separated (m : Map) (w h : ℤ) (x y dx dy : ℝ) :
    (Player.check_collision m w h (x + dx) y = false →
      (Player.moveWithCollision m w h x y dx dy).1 = x + dx) ∧
    (Player.check_collision m w h (x + dx) y = true →
      (Player.moveWithCollision m w h x y dx dy).1 = x) ∧
    (Player.check_collision m w h (Player.moveWithCollision m w h x y dx dy).1 (y + dy) = false →
      (Player.moveWithCollision m w h x y dx dy).2 = y + dy) ∧
    (Player.check_collision m w h (Player.moveWithCollision m w h x y dx dy).1 (y + dy) = true →
      (Player.moveWithCollision m w h x y dx dy).2 = y) ∧
    (Player.check_collision m w h (x + dx) y = true →
      Player.check_collision m w h x (y + dy) = false →
      Player.moveWithCollision m w h x y dx dy = (x, y + dy)) := by
  unfold Player.moveWithCollision
  cases h1 : Player.check_collision m w h (x + dx) y
  · cases h2 : Player.check_collision m w h (x + dx) (y + dy) <;> simp [h1, h2]
  · cases h2 : Player.check_collision m w h x (y + dy) <;> simp [h1, h2]

/-- The x-axis probe of the sliding scenario: the box at `(30, 32)` on
`wallMap` touches only grass tiles. -/
lemma checkA : Player.check_collision wallMap 32 32 (32 + -2) 32 = false := by
  rw [check_collision_eval wallMap 32 32 (32 + -2) 32 0 1 1 1
    (floor_tile _ 0 (by norm_num) (by norm_num))
    (floor_tile _ 1 (by norm_num) (by norm_num))
    (floor_tile _ 1 (by push_cast; norm_num) (by push_cast; norm_num))
    (floor_tile _ 1 (by push_cast; norm_num) (by push_cast; norm_num))]
  decide

/-- The y-axis probe of the sliding scenario: the box at `(30, 30)` on
`wallMap` touches a wall tile of the top row. -/
lemma checkB : Player.check_collision wallMap 32 32 (32 + -2) (32 + -2) = true := by
  rw [check_collision_eval wallMap 32 32 (32 + -2) (32 + -2) 0 0 1 1
    (floor_tile _ 0 (by norm_num) (by norm_num))
    (floor_tile _ 0 (by norm_num) (by norm_num))
    (floor_tile _ 1 (by push_cast; norm_num) (by push_cast; norm_num))
    (floor_tile _ 1 (by push_cast; norm_num) (by push_cast; norm_num))]
  decide

/-- C2 witness: a concrete sliding tick on `wallMap`.  The player at
`(32, 32)` moving up-left by `(-2, -2)` advances on the clear x axis and is
stopped on the y axis by the wall row above. -/
theorem moveWithCollision_axis_separated_witness :
    Player.moveWithCollision wallMap 32 32 32 32 (-2) (-2) = (30, 32) := by
  obtain ⟨h1, -, -, h4, -⟩ := moveWithCollision_axis_separated wallMap 32 32 32 32 (-2) (-2)
  have hx : (Player.moveWithCollision wallMap 32 32 32 32 (-2) (-2)).1 = 32 + -2 := h1 checkA
  have hy : (Player.moveWithCollision wallMap 32 32 32 32 (-2) (-2)).2 = 32 := by
    apply h4
    rw [hx]
    exact checkB
  rw [Prod.ext_iff]
  constructor
  · rw [hx]
    norm_num
  · exact hy

/-- C7: when both left and right are held the horizontal intent is rightward,
when both up and down are held the vertical intent is downward, and the
facing is the last non-zero axis evaluated in the fixed order left, right,
up, down. -/
theorem handle_input_tie_break (inp : InputState) (p : PlayerState) :
    (inp.left = true → inp.right = true →
      (Player.handle_input inp p).change_x = (Player.handle_input inp p).current_speed ∧
      0 < (Player.handle_input inp p).change_x) ∧
    (inp.up = true → inp.down = true →
      (Player.handle_input inp p).change_y = (Player.handle_input inp p).current_speed ∧
      0 < (Player.handle_input inp p).change_y) ∧
    (Player.handle_input inp p).current_direction =
      (if inp.down then Dir.down else if inp.up then Dir.up
       else if inp.right then Dir.right else if inp.left then Dir.left
       else p.current_direction) := by
  obtain ⟨u, d, l, r, s, a, yb⟩ := inp
  cases u <;> cases d <;> cases l <;> cases r <;> cases s <;>
    simp [Player.handle_input, WALK_SPEED, SPRINT_SPEED]

/-- C7 witness: with all four directions held, the horizontal intent is
rightward (positive) and the facing resolves to down. -/
theorem handle_input_tie_break_witness :
    (Player.handle_input allDirections (Player.init 0 0)).change_x =
      (Player.handle_input allDirections (Player.init 0 0)).current_speed ∧
    0 < (Player.handle_input allDirections (Player.init 0 0)).change_x ∧
    (Player.handle_input allDirections (Player.init 0 0)).current_direction = Dir.down := by
  obtain ⟨h1, h2, h3⟩ := handle_input_tie_break allDirections (Player.init 0 0)
  obtain ⟨ha, hb⟩ := h1 rfl rfl
  refine ⟨ha, hb, ?_⟩
  rw [h3]
  decide

/-- C10: when none of the four direction actions is active, intent resolution
leaves the facing unchanged while the movement intent is reset to zero; the
facing is initialized to down at construction. -/
theorem facing_unchanged_without_input (inp : InputState) (p : PlayerState) (x y : ℝ)
    (hl : inp.left = false) (hr : inp.right = false)
    (hu : inp.up = false) (hd : inp.down = false) :
    (Player.handle_input inp p).current_direction = p.current_direction ∧
    (Player.handle_input inp p).change_x = 0 ∧
    (Player.handle_input inp p).change_y = 0 ∧
    (Player.init x y).current_direction = Dir.down := by
  simp [Player.handle_input, Player.init, hl, hr, hu, hd]

/-- C10 witness: the idle input on a freshly constructed player. -/
theorem facing_unchanged_without_input_witness :
    (Player.handle_input noInput (Player.init 0 0)).current_direction =
      (Player.init 0 0).current_direction ∧
    (Player.handle_input noInput (Player.init 0 0)).change_x = 0 ∧
    (Player.handle_input noInput (Player.init 0 0)).change_y = 0 ∧
    (Player.init (0 : ℝ) (0 : ℝ)).current_direction = Dir.down :=
  facing_unchanged_without_input noInput (Player.init 0 0) 0 0 rfl rfl rfl rfl

/-- Diagonal correction: when both axes are non-zero the rescaled
displacement has Euclidean magnitude exactly the current speed. -/
lemma displacement_diag (cx cy s : ℝ) (hx : cx ≠ 0) (hy : cy ≠ 0) (hs : 0 ≤ s) :
    Real.sqrt ((displacement cx cy s).1 ^ 2 + (displacement cx cy s).2 ^ 2) = s := by
  have hm : 0 < cx ^ 2 + cy ^ 2 := by
    have h1 : 0 < cx ^ 2 := lt_of_le_of_ne (sq_nonneg cx) (Ne.symm (pow_ne_zero 2 hx))
    have h2 : 0 ≤ cy ^ 2 := sq_nonneg cy
    linarith
  have hsq : Real.sqrt (cx ^ 2 + cy ^ 2) ≠ 0 := ne_of_gt (Real.sqrt_pos.mpr hm)
  have hss : Real.sqrt (cx ^ 2 + cy ^ 2) ^ 2 = cx ^ 2 + cy ^ 2 := Real.sq_sqrt hm.le
  unfold displacement
  rw [if_pos hm, if_pos ⟨hx, hy⟩]
  have key : (cx * (s / Real.sqrt (cx ^ 2 + cy ^ 2))) ^ 2 +
      (cy * (s / Real.sqrt (cx ^ 2 + cy ^ 2))) ^ 2 = s ^ 2 := by
    field_simp
    linarith [hss]
  calc Real.sqrt ((cx * (s / Real.sqrt (cx ^ 2 + cy ^ 2))) ^ 2 +
        (cy * (s / Real.sqrt (cx ^ 2 + cy ^ 2))) ^ 2)
      = Real.sqrt (s ^ 2) := by rw [key]
    _ = s := Real.sqrt_sq hs

/-- A non-zero single-axis movement vector is passed through unscaled. -/
lemma displacement_single_x (cx s : ℝ) (hx : cx ≠ 0) : displacement cx 0 s = (cx, 0) := by
  have hm : 0 < cx ^ 2 + (0 : ℝ) ^ 2 := by
    have h1 : 0 < cx ^ 2 := lt_of_le_of_ne (sq_nonneg cx) (Ne.symm (pow_ne_zero 2 hx))
    nlinarith
  unfold displacement
  rw [if_pos hm, if_neg]
  simp

/-- A non-zero single-axis movement vector is passed through unscaled. -/
lemma displacement_single_y (cy s : ℝ) (hy : cy ≠ 0) : displacement 0 cy s = (0, cy) := by
  have hm : 0 < (0 : ℝ) ^ 2 + cy ^ 2 := by
    have h1 : 0 < cy ^ 2 := lt_of_le_of_ne (sq_nonneg cy) (Ne.symm (pow_ne_zero 2 hy))
    nlinarith
  unfold displacement
  rw [if_pos hm, if_neg]
  simp

/-- After intent resolution the speed is positive and each axis of the
movement vector is zero or has absolute value equal to the current speed. -/
lemma handle_input_changes (inp : InputState) (p : PlayerState) :
    0 < (Player.handle_input inp p).current_speed ∧
    ((Player.handle_input inp p).change_x = 0 ∨
      |(Player.handle_input inp p).change_x| = (Player.handle_input inp p).current_speed) ∧
    ((Player.handle_input inp p).change_y = 0 ∨
      |(Player.handle_input inp p).change_y| = (Player.handle_input inp p).current_speed) := by
  obtain ⟨u, d, l, r, s, a, yb⟩ := inp
  cases u <;> cases d <;> cases l <;> cases r <;> cases s <;>
    simp [Player.handle_input, WALK_SPEED, SPRINT_SPEED]

/-- C3: for a tick in which both movement axes are non-zero after intent
resolution, the displacement computed before collision has Euclidean
magnitude exactly the current speed (WALK_SPEED or SPRINT_SPEED); for a tick
with exactly one non-zero axis, the displacement is the movement vector
itself: the speed in magnitude along that axis and zero on the other. -/
theorem displacement_magnitude (inp : InputState) (p : PlayerState) :
    ((Player.handle_input inp p).change_x ≠ 0 → (Player.handle_input inp p).change_y ≠ 0 →
      Real.sqrt ((displacement (Player.handle_input inp p).change_x
          (Player.handle_input inp p).change_y
          (Player.handle_input inp p).current_speed).1 ^ 2 +
        (displacement (Player.handle_input inp p).change_x
          (Player.handle_input inp p).change_y
          (Player.handle_input inp p).current_speed).2 ^ 2) =
        (Player.handle_input inp p).current_speed) ∧
    ((Player.handle_input inp p).change_x ≠ 0 → (Player.handle_input inp p).change_y = 0 →
      displacement (Player.handle_input inp p).change_x (Player.handle_input inp p).change_y
          (Player.handle_input inp p).current_speed = ((Player.handle_input inp p).change_x, 0) ∧
      |(Player.handle_input inp p).change_x| = (Player.handle_input inp p).current_speed) ∧
    ((Player.handle_input inp p).change_x = 0 → (Player.handle_input inp p).change_y ≠ 0 →
      displacement (Player.handle_input inp p).change_x (Player.handle_input inp p).change_y
          (Player.handle_input inp p).current_speed = (0, (Player.handle_input inp p).change_y) ∧
      |(Player.handle_input inp p).change_y| = (Player.handle_input inp p).current_speed) := by
  obtain ⟨hs, hcx, hcy⟩ := handle_input_changes inp p
  refine ⟨?_, ?_, ?_⟩
  · intro hx hy
    exact displacement_diag _ _ _ hx hy hs.le
  · intro hx hy0
    refine ⟨?_, ?_⟩
    · rw [hy0]
      exact displacement_single_x _ _ hx
    · rcases hcx with h | h
      · exact absurd h hx
      · exact h
  · intro hx0 hy
    refine ⟨?_, ?_⟩
    · rw [hx0]
      exact displacement_single_y _ _ hy
    · rcases hcy with h | h
      · exact absurd h hy
      · exact h

/-- C3 witness: the up-left diagonal at walk speed on a fresh player. -/
theorem displacement_magnitude_witness :
    Real.sqrt ((displacement (Player.handle_input upLeftInput (Player.init 0 0)).change_x
        (Player.handle_input upLeftInput (Player.init 0 0)).change_y
        (Player.handle_input upLeftInput (Player.init 0 0)).current_speed).1 ^ 2 +
      (displacement (Player.handle_input upLeftInput (Player.init 0 0)).change_x
        (Player.handle_input upLeftInput (Player.init 0 0)).change_y
        (Player.handle_input upLeftInput (Player.init 0 0)).current_speed).2 ^ 2) =
      (Player.handle_input upLeftInput (Player.init 0 0)).current_speed :=
  (displacement_magnitude upLeftInput (Player.init 0 0)).1
    (by norm_num [Player.handle_input, upLeftInput, WALK_SPEED])
    (by norm_num [Player.handle_input, upLeftInput, WALK_SPEED])

/-- The viewport minus map-pixels difference is even for the program's
constants: the viewport edges (640, 480) and `TILE_SIZE` are all even. -/
lemma clamp_camera_axis_center (viewport map_pixels : ℤ) (offset : ℝ)
    (hlt : map_pixels < viewport) (heven : (2 : ℤ) ∣ (viewport - map_pixels)) :
    clamp_camera_axis viewport map_pixels offset =
      ((viewport : ℝ) - (map_pixels : ℝ)) / 2 := by
  obtain ⟨k, hk⟩ := heven
  unfold clamp_camera_axis
  rw [if_pos hlt, hk, Int.mul_fdiv_cancel_left _ (by norm_num : (2 : ℤ) ≠ 0)]
  have hcast : (viewport : ℝ) - (map_pixels : ℝ) = ((viewport - map_pixels : ℤ) : ℝ) := by
    push_cast
    ring
  rw [hcast, hk]
  push_cast
  ring

/-- C4: on each axis, when the map is at least as large as the viewport the
final camera offset lies in `[viewport - map_pixels, 0]` for every player
position; when the map is smaller, the offset centers the map at
`(viewport - map_pixels) / 2` independent of the player position. -/
theorem camera_offset_clamped (m : Map) (x y : ℝ) :
    (SCREEN_WIDTH ≤ m.width * TILE_SIZE →
      camera_offset_x m x ≤ 0 ∧
      (SCREEN_WIDTH : ℝ) - ((m.width * TILE_SIZE : ℤ) : ℝ) ≤ camera_offset_x m x) ∧
    (m.width * TILE_SIZE < SCREEN_WIDTH →
      camera_offset_x m x = ((SCREEN_WIDTH : ℝ) - ((m.width * TILE_SIZE : ℤ) : ℝ)) / 2) ∧
    (SCREEN_HEIGHT ≤ m.height * TILE_SIZE →
      camera_offset_y m y ≤ 0 ∧
      (SCREEN_HEIGHT : ℝ) - ((m.height * TILE_SIZE : ℤ) : ℝ) ≤ camera_offset_y m y) ∧
    (m.height * TILE_SIZE < SCREEN_HEIGHT →
      camera_offset_y m y = ((SCREEN_HEIGHT : ℝ) - ((m.height * TILE_SIZE : ℤ) : ℝ)) / 2) := by
  have htile : (2 : ℤ) ∣ TILE_SIZE := by norm_num [TILE_SIZE]
  refine ⟨?_, ?_, ?_, ?_⟩
  · intro hle
    unfold camera_offset_x clamp_camera_axis
    rw [if_neg (not_lt.mpr hle)]
    refine ⟨min_le_left _ _, le_min ?_ (le_max_right _ _)⟩
    have : ((m.width * TILE_SIZE : ℤ) : ℝ) ≥ ((SCREEN_WIDTH : ℤ) : ℝ) := by exact_mod_cast hle
    linarith
  · intro hlt
    exact clamp_camera_axis_center _ _ _ hlt
      (dvd_sub (by norm_num [SCREEN_WIDTH]) (Dvd.dvd.mul_left htile m.width))
  · intro hle
    unfold camera_offset_y clamp_camera_axis
    rw [if_neg (not_lt.mpr hle)]
    refine ⟨min_le_left _ _, le_min ?_ (le_max_right _ _)⟩
    have : ((m.height * TILE_SIZE : ℤ) : ℝ) ≥ ((SCREEN_HEIGHT : ℤ) : ℝ) := by exact_mod_cast hle
    linarith
  · intro hlt
    exact clamp_camera_axis_center _ _ _ hlt
      (dvd_sub (by norm_num [SCREEN_HEIGHT]) (Dvd.dvd.mul_left htile m.height))

/-- C4 witness: on `wideMap` (800 x 320 pixels) the x axis is clamped into
`[640 - 800, 0]` and the y axis is centered at `(480 - 320) / 2`. -/
theorem camera_offset_clamped_witness :
    camera_offset_x wideMap 400 ≤ 0 ∧
    (SCREEN_WIDTH : ℝ) - ((wideMap.width * TILE_SIZE : ℤ) : ℝ) ≤ camera_offset_x wideMap 400 ∧
    camera_offset_y wideMap 0 =
      ((SCREEN_HEIGHT : ℝ) - ((wideMap.height * TILE_SIZE : ℤ) : ℝ)) / 2 := by
  obtain ⟨h1, -, -, h4⟩ := camera_offset_clamped wideMap 400 0
  obtain ⟨ha, hb⟩ := h1 (by decide)
  exact ⟨ha, hb, h4 (by decide)⟩

/-- C5 counterexample: the pre-clamp target offset computed by the source at
player position 0 with bounding width 32 is `CAMERA_X - 0 = 320`, not the
`CAMERA_X - (0 + 32 / 2) = 304` that the spec's "player center" formula
gives. -/
theorem camera_target_not_center :
    cameraTargetX 0 ≠ cameraTargetXSpec 0 32 := by
  norm_num [cameraTargetX, cameraTargetXSpec, CAMERA_X, SCREEN_WIDTH]

/-- C5 amended: the camera's pre-clamp target offset equals the fixed focus
point minus the player's world position (the top-left corner of its bounding
box, not its center) on each axis; the bounding size does not enter.  When
the map covers the viewport and the target is inside the clamp range, the
final offset is exactly that target. -/
theorem camera_target_topleft (m : Map) (x y : ℝ)
    (hx1 : (SCREEN_WIDTH : ℝ) - ((m.width * TILE_SIZE : ℤ) : ℝ) ≤ (CAMERA_X : ℝ) - x)
    (hx2 : (CAMERA_X : ℝ) - x ≤ 0)
    (hwx : SCREEN_WIDTH ≤ m.width * TILE_SIZE)
    (hy1 : (SCREEN_HEIGHT : ℝ) - ((m.height * TILE_SIZE : ℤ) : ℝ) ≤ (CAMERA_Y : ℝ) - y)
    (hy2 : (CAMERA_Y : ℝ) - y ≤ 0)
    (hwy : SCREEN_HEIGHT ≤ m.height * TILE_SIZE) :
    cameraTargetX x = (CAMERA_X : ℝ) - x ∧
    cameraTargetY y = (CAMERA_Y : ℝ) - y ∧
    camera_offset_x m x = (CAMERA_X : ℝ) - x ∧
    camera_offset_y m y = (CAMERA_Y : ℝ) - y := by
  refine ⟨rfl, rfl, ?_, ?_⟩
  · unfold camera_offset_x clamp_camera_axis cameraTargetX
    rw [if_neg (not_lt.mpr hwx), max_eq_left hx1, min_eq_right hx2]
  · unfold camera_offset_y clamp_camera_axis cameraTargetY
    rw [if_neg (not_lt.mpr hwy), max_eq_left hy1, min_eq_right hy2]

/-- C5 witness: on `bigMap` (800 x 640 pixels) with the player at
`(400, 300)`, the camera offset is exactly the focus point minus the
player's top-left position. -/
theorem camera_target_topleft_witness :
    cameraTargetX 400 = (CAMERA_X : ℝ) - 400 ∧
    cameraTargetY 300 = (CAMERA_Y : ℝ) - 300 ∧
    camera_offset_x bigMap 400 = (CAMERA_X : ℝ) - 400 ∧
    camera_offset_y bigMap 300 = (CAMERA_Y : ℝ) - 300 := by
  have hw : bigMap.width = 25 := rfl
  have hh : bigMap.height = 20 := rfl
  refine camera_target_topleft bigMap 400 300 ?_ ?_ (by decide) ?_ ?_ (by decide)
  · rw [hw]
    norm_num [CAMERA_X, SCREEN_WIDTH, TILE_SIZE]
  · norm_num [CAMERA_X, SCREEN_WIDTH]
  · rw [hh]
    norm_num [CAMERA_Y, SCREEN_HEIGHT, TILE_SIZE]
  · norm_num [CAMERA_Y, SCREEN_HEIGHT]

/-- A grid without SPAWN tiles collects no spawn points. -/
lemma spawn_points_eq_nil (g : Grid) (hg : ∀ row ∈ g, ∀ t ∈ row, t ≠ Tile.spawn) :
    spawn_points g = [] := by
  unfold spawn_points
  rw [List.flatten_eq_nil_iff]
  intro l hl
  rw [List.mem_map] at hl
  obtain ⟨r, hr, rfl⟩ := hl
  rw [List.filterMap_eq_nil_iff]
  intro c hc
  have hrow : r.2 ∈ g := List.getElem?_mem (List.mem_enum_iff_getElem?.mp hr)
  have htile : c.2 ∈ r.2 := List.getElem?_mem (List.mem_enum_iff_getElem?.mp hc)
  simp [hg r.2 hrow c.2 htile]

/-- C8: the spawn selector returns `(0, 0)` and signals the no-spawn warning
on any grid without SPAWN tiles; on the grid with exactly one SPAWN tile at
column 2 of row 3 it returns `(64, 96)` (with tile size 32) for every choice
of random source; and the choice is a pure function of the grid and the
seeded source, hence deterministic. -/
theorem spawn_selector_spec (pick : ℕ → ℕ) :
    (∀ g : Grid, (∀ row ∈ g, ∀ t ∈ row, t ≠ Tile.spawn) →
      get_random_spawn_point g pick = ((0, 0), true)) ∧
    get_random_spawn_point spawnDemoGrid pick = ((64, 96), false) ∧
    (∀ g : Grid, ∀ pick2 : ℕ → ℕ, (∀ n, pick n = pick2 n) →
      get_random_spawn_point g pick = get_random_spawn_point g pick2) := by
  refine ⟨?_, ?_, ?_⟩
  · intro g hg
    unfold get_random_spawn_point
    rw [spawn_points_eq_nil g hg]
    rfl
  · unfold get_random_spawn_point
    rw [show spawn_points spawnDemoGrid = [(64, 96)] from rfl]
    simp [Nat.mod_one]
  · intro g pick2 hp
    rw [funext hp]

/-- C8 witness: the empty-fallback on a one-tile grass grid and the
deterministic single-spawn choice, at the constant random source. -/
theorem spawn_selector_spec_witness :
    get_random_spawn_point [[Tile.grass]] (fun _ => 0) = ((0, 0), true) ∧
    get_random_spawn_point spawnDemoGrid (fun _ => 0) = ((64, 96), false) :=
  ⟨(spawn_selector_spec (fun _ => 0)).1 [[Tile.grass]] (by decide),
   (spawn_selector_spec (fun _ => 0)).2.1⟩

/-- C9 counterexample: `Map.__init__` accepts a non-rectangular grid: on a
collection holding `raggedGrid` (rows of lengths 1 and 2) the construction
succeeds, while the grid is not rectangular.  No `MalformedMap` failure
exists in the code: the only failure paths are the name lookup and indexing
row 0 of an empty grid. -/
theorem map_init_accepts_ragged :
    rectangular raggedGrid = false ∧
    Map.init [("map1", raggedGrid)] "map1" = Except.ok ⟨raggedGrid⟩ := by
  constructor
  · rfl
  · rfl

/-- C9 amended: map construction performs no rectangularity validation: for
every collection and name, when the looked-up grid exists and is nonempty
(rectangular or not) the construction succeeds and stores the grid as-is. -/
theorem map_init_no_shape_check (collection : List (String × Grid)) (map_name : String)
    (g : Grid) (hfind : collection.lookup map_name = some g) (hne : g.isEmpty = false) :
    Map.init collection map_name = Except.ok ⟨g⟩ := by
  unfold Map.init
  rw [hfind]
  simp [hne]

/-- C9 witness: the amended statement at the ragged one-map collection. -/
theorem map_init_no_shape_check_witness :
    Map.init [("map2", [[Tile.grass, Tile.grass], [Tile.grass, Tile.grass]])] "map2" =
      Except.ok ⟨[[Tile.grass, Tile.grass], [Tile.grass, Tile.grass]]⟩ :=
  map_init_no_shape_check _ _ _ rfl rfl

/-- C6: `_check_collision` returns true iff at least one of the four corners
of the box `[x, x + w - 1] x [y, y + h - 1]`, converted to a tile coordinate
by floor division by the tile size, is in bounds of the grid and holds a
WALL tile; corners whose tile coordinate is out of bounds never cause
blocking. -/
theorem check_collision_iff (m : Map) (w h : ℤ) (x y : ℝ) :
    Player.check_collision m w h x y = true ↔
      ∃ cx ∈ [x, x + (w : ℝ) - 1], ∃ cy ∈ [y, y + (h : ℝ) - 1],
        0 ≤ ⌊cy / (TILE_SIZE : ℝ)⌋ ∧ ⌊cy / (TILE_SIZE : ℝ)⌋ < m.height ∧
        0 ≤ ⌊cx / (TILE_SIZE : ℝ)⌋ ∧ ⌊cx / (TILE_SIZE : ℝ)⌋ < m.width ∧
        (m.map_array.getD (⌊cy / (TILE_SIZE : ℝ)⌋).toNat []).getD
          (⌊cx / (TILE_SIZE : ℝ)⌋).toNat Tile.grass = Tile.wall := by
  unfold Player.check_collision
  simp only [List.any_eq_true, List.mem_cons, List.not_mem_nil, or_false,
    Bool.and_eq_true, decide_eq_true_eq, List.mem_singleton]
  constructor
  · rintro ⟨t, (rfl | rfl | rfl | rfl), ⟨⟨⟨h1, h2⟩, h3⟩, h4⟩, h5⟩
    · exact ⟨x, Or.inl rfl, y, Or.inl rfl, h1, h2, h3, h4, h5⟩
    · exact ⟨x, Or.inl rfl, y + (h : ℝ) - 1, Or.inr rfl, h1, h2, h3, h4, h5⟩
    · exact ⟨x + (w : ℝ) - 1, Or.inr rfl, y, Or.inl rfl, h1, h2, h3, h4, h5⟩
    · exact ⟨x + (w : ℝ) - 1, Or.inr rfl, y + (h : ℝ) - 1, Or.inr rfl, h1, h2, h3, h4, h5⟩
  · rintro ⟨cx, (rfl | rfl), cy, (rfl | rfl), h1, h2, h3, h4, h5⟩
    · exact ⟨_, Or.inl rfl, ⟨⟨⟨h1, h2⟩, h3⟩, h4⟩, h5⟩
    · exact ⟨_, Or.inr (Or.inl rfl), ⟨⟨⟨h1, h2⟩, h3⟩, h4⟩, h5⟩
    · exact ⟨_, Or.inr (Or.inr (Or.inl rfl)), ⟨⟨⟨h1, h2⟩, h3⟩, h4⟩, h5⟩
    · exact ⟨_, Or.inr (Or.inr (Or.inr rfl)), ⟨⟨⟨h1, h2⟩, h3⟩, h4⟩, h5⟩

end PiGame
